import Mathlib

/-!
# WeatherAlerts — verification of the cache-and-bulk-fetch subsystem

Shallow embedding of the WeatherAlerts repository's core:
the SQLite-backed TTL cache (`services/database.py`), the bulk fetch
orchestrator (`services/weather_service copy.py`,
`WeatherService.get_bulk_weather_data`), the background task runner
(`utils/background.py`, `BackgroundTaskManager`) and the alert
regeneration pipeline (`routes/api_routes.py`, `generate_alerts_task`).

Modelling conventions:
* Timestamps are `Nat` (seconds).  SQL `CURRENT_TIMESTAMP` / Python
  `datetime.now()` become an explicit `now` argument.
* The two tables `weather_cache` and `alerts` are lists of rows; SQL
  `DELETE ... WHERE p` is `List.filter (fun r => !p r)`, `SELECT ... WHERE p`
  is `List.find?` / `List.filter`, and `INSERT OR REPLACE` (upsert on the
  primary key) removes any row with the same key and conses the new row.
* JSON payloads are abstracted: the cache stores the serialized string
  exactly as the source does; `encodePayload` stands for `json.dumps`
  (an injective serialization) and `decodePayload` for `json.loads`
  (its partial inverse).  Strings outside the range of `encodePayload`
  model corrupt rows, the only property of JSON the source relies on.
* Functions whose Python bodies can raise are total here when the source
  catches every exception at its boundary (`except Exception: return ...`);
  the returned value is the one the handler produces.
-/

namespace WeatherAlerts

/-- Abstract JSON documents stored in the cache. -/
abbrev Payload := Nat

/-- Model of `json.dumps`: an injective serialization of payloads into strings. -/
def encodePayload (p : Payload) : String :=
  String.mk (List.replicate p 'x')

/-- Model of `json.loads`: partial inverse of `encodePayload`; `none` models a parse
error (a corrupt row). -/
def decodePayload (s : String) : Option Payload :=
  if s.data.all (fun c => c == 'x') then some s.data.length else none

theorem decode_encode (p : Payload) :
    decodePayload (encodePayload p) = some p := by
  simp [decodePayload, encodePayload, List.all_eq_true, List.mem_replicate]

/-- A row of the `weather_cache` table
(`cache_key TEXT PRIMARY KEY, data TEXT, created_at, expires_at`). -/
structure CacheRow where
  cache_key : String
  data : String
  created_at : Nat
  expires_at : Nat
deriving Repr, DecidableEq

/-- The `weather_cache` table. -/
abbrev WeatherCache := List CacheRow

/-- SQL `expires_at > CURRENT_TIMESTAMP`: the row is live at `now`. -/
def liveRow (now : Nat) (r : CacheRow) : Bool :=
  decide (now < r.expires_at)

/-- The query `SELECT ... FROM weather_cache WHERE cache_key = ? AND
expires_at > CURRENT_TIMESTAMP` (at most one row thanks to the primary
key; we take the first match). -/
def dbLookup (s : WeatherCache) (now : Nat) (k : String) : Option CacheRow :=
  s.find? (fun r => r.cache_key == k && liveRow now r)

/-- Model of `database.get_raw_weather_cache`: returns `(json.loads(data), created_at)`
for a live row.  A `json.loads` failure propagates to the function's
`except Exception: return None`, so the result is a miss and — unlike
`get_weather_cache` — the row is **not** deleted: the second component is
the unchanged table. -/
def get_raw_weather_cache (s : WeatherCache) (now : Nat) (k : String) :
    Option (Payload × Nat) × WeatherCache :=
  match dbLookup s now k with
  | some r =>
    match decodePayload r.data with
    | some p => (some (p, r.created_at), s)
    | none => (none, s)
  | none => (none, s)

/-- Model of `database.get_weather_cache`: like `get_raw_weather_cache` but a row whose
payload fails to parse is deleted (`DELETE FROM weather_cache WHERE
cache_key = ?`) and a miss is returned. -/
def get_weather_cache (s : WeatherCache) (now : Nat) (k : String) :
    Option Payload × WeatherCache :=
  match dbLookup s now k with
  | some r =>
    match decodePayload r.data with
    | some p => (some p, s)
    | none => (none, s.filter (fun r2 => !(r2.cache_key == k)))
  | none => (none, s)

/-- Model of `database.set_raw_weather_cache`: `INSERT OR REPLACE` of
`(key, json.dumps(data), now, now + Config.CACHE_TIME)`; the configured TTL
`Config.CACHE_TIME` (config.py is not part of the sources) is the explicit
argument `cacheTime`. -/
def set_raw_weather_cache (s : WeatherCache) (now cacheTime : Nat)
    (k : String) (v : Payload) : WeatherCache :=
  { cache_key := k, data := encodePayload v,
    created_at := now, expires_at := now + cacheTime } ::
    s.filter (fun r => !(r.cache_key == k))

/-- C2: writing a payload under a key and immediately reading it back yields
that payload (with the write time as `created_at`), for any positive
configured TTL; and reading any key all of whose stored rows have
`expires_at` in the past is a miss. -/
theorem set_then_get_roundtrip_and_expired_miss
    (s : WeatherCache) (now cacheTime : Nat) (k : String) (v : Payload)
    (hct : 0 < cacheTime) :
    (get_raw_weather_cache (set_raw_weather_cache s now cacheTime k v) now k).1
      = some (v, now)
    ∧ ∀ (s' : WeatherCache) (now' : Nat) (k' : String),
        (∀ r ∈ s', r.cache_key = k' → r.expires_at ≤ now') →
        (get_raw_weather_cache s' now' k').1 = none := by
  constructor
  · simp [get_raw_weather_cache, set_raw_weather_cache, dbLookup,
      List.find?_cons, liveRow, Nat.lt_add_of_pos_right hct, decode_encode]
  · intro s' now' k' hexp
    have hnone : dbLookup s' now' k' = none := by
      apply List.find?_eq_none.mpr
      intro r hr
      simp only [Bool.and_eq_true, beq_iff_eq, liveRow, decide_eq_true_eq,
        not_and]
      intro hk
      exact Nat.not_lt.mpr (hexp r hr hk)
    simp [get_raw_weather_cache, hnone]

/-- Witness for C2 at a concrete instance (TTL 300, as in the spec's
scenario). -/
theorem set_then_get_roundtrip_and_expired_miss_witness :
    (get_raw_weather_cache
        (set_raw_weather_cache [] 100 300 "weather_3_PUNJAB_LAHORE" 20)
        100 "weather_3_PUNJAB_LAHORE").1 = some (20, 100)
    ∧ (get_raw_weather_cache
        [⟨"weather_3_PUNJAB_LAHORE", encodePayload 20, 0, 99⟩]
        400 "weather_3_PUNJAB_LAHORE").1 = none := by
  have h := set_then_get_roundtrip_and_expired_miss []
    100 300 "weather_3_PUNJAB_LAHORE" 20 (by decide)
  refine ⟨h.1, ?_⟩
  exact h.2 [⟨"weather_3_PUNJAB_LAHORE", encodePayload 20, 0, 99⟩] 400
    "weather_3_PUNJAB_LAHORE" (by intro r hr _; simp at hr; simp [hr])

/-- Model of `database.get_raw_weather_cache_batch`: one `SELECT ... WHERE cache_key
IN (...) AND expires_at > CURRENT_TIMESTAMP`; rows whose payload fails to
parse are skipped (`continue`); an empty key list returns `{}` before any
query. -/
def get_raw_weather_cache_batch (s : WeatherCache) (now : Nat)
    (keys : List String) : List (String × Payload × Nat) :=
  if keys.isEmpty then []
  else
    (s.filter (fun r => decide (r.cache_key ∈ keys) && liveRow now r)).filterMap
      (fun r => (decodePayload r.data).map (fun p => (r.cache_key, p, r.created_at)))

/-- C4: the batch lookup's result contains `(k, p, c)` exactly when `k` was
requested and some stored row for `k` is live at `now` with a payload that
deserializes to `p` and `created_at = c`; absent, expired and undecodable
keys are simply omitted (the function is total — never an error). -/
theorem get_batch_exact_domain (s : WeatherCache) (now : Nat)
    (keys : List String) (k : String) (p : Payload) (c : Nat) :
    (k, p, c) ∈ get_raw_weather_cache_batch s now keys ↔
      (k ∈ keys ∧ ∃ r ∈ s, r.cache_key = k ∧ now < r.expires_at ∧
        decodePayload r.data = some p ∧ r.created_at = c) := by
  unfold get_raw_weather_cache_batch
  by_cases hk : keys.isEmpty
  · rw [List.isEmpty_iff.mp hk]
    simp
  · rw [if_neg hk]
    simp only [List.mem_filterMap, List.mem_filter, Bool.and_eq_true,
      decide_eq_true_eq, liveRow, Option.map_eq_some']
    constructor
    · rintro ⟨r, ⟨hrs, hmem, hlive⟩, q, hq, heq⟩
      simp only [Prod.mk.injEq] at heq
      obtain ⟨h1, h2, h3⟩ := heq
      subst h1; subst h2; subst h3
      exact ⟨hmem, r, hrs, rfl, hlive, hq, rfl⟩
    · rintro ⟨hkmem, r, hrs, hkey, hlive, hdec, hc⟩
      exact ⟨r, ⟨hrs, hkey ▸ hkmem, hlive⟩, p, hdec, by rw [hkey, hc]⟩

/-- Witness for C4: a concrete batch over `{k1, k2, k3}` where only `k1` is
live and decodable. -/
theorem get_batch_exact_domain_witness :
    ("k1", 2, 7) ∈ get_raw_weather_cache_batch
      [⟨"k1", encodePayload 2, 7, 100⟩, ⟨"k2", encodePayload 3, 1, 4⟩]
      5 ["k1", "k2", "k3"] := by
  refine (get_batch_exact_domain _ 5 _ "k1" 2 7).mpr ?_
  refine ⟨by decide, ⟨"k1", encodePayload 2, 7, 100⟩, by decide, rfl, by decide,
    decode_encode 2, rfl⟩

/-- C8 counterexample: a live row whose payload does not deserialize, read
through the single-key read `get_raw_weather_cache`, yields a miss but the
row is left in the store — the read does not delete it, contradicting the
claim that every single-key cache read self-heals. -/
theorem raw_read_keeps_corrupt_row :
    (get_raw_weather_cache [⟨"k", "corrupt", 0, 100⟩] 5 "k").1 = none
    ∧ (get_raw_weather_cache [⟨"k", "corrupt", 0, 100⟩] 5 "k").2
        = [⟨"k", "corrupt", 0, 100⟩] := by
  constructor <;> rfl

/-- C8 amended: on a live row whose payload fails to deserialize,
`get_weather_cache` deletes the row and returns a miss (afterwards no row
for that key remains) and never propagates the parse error; the raw read
`get_raw_weather_cache` also absorbs the error and returns a miss, but
leaves the store unchanged. -/
theorem corrupt_row_read_behaviour (s : WeatherCache) (now : Nat) (k : String)
    (r : CacheRow) (hfind : dbLookup s now k = some r)
    (hbad : decodePayload r.data = none) :
    (get_weather_cache s now k).1 = none
    ∧ (∀ r2 ∈ (get_weather_cache s now k).2, r2.cache_key ≠ k)
    ∧ get_raw_weather_cache s now k = (none, s) := by
  refine ⟨?_, ?_, ?_⟩
  · simp [get_weather_cache, hfind, hbad]
  · intro r2 hr2
    simp only [get_weather_cache, hfind, hbad] at hr2
    have := List.mem_filter.mp hr2
    simpa using this.2
  · simp [get_raw_weather_cache, hfind, hbad]

/-- Witness for C8 amended at the concrete corrupt row. -/
theorem corrupt_row_read_behaviour_witness :
    (get_weather_cache [⟨"k", "corrupt", 0, 100⟩] 5 "k").1 = none
    ∧ (∀ r2 ∈ (get_weather_cache [⟨"k", "corrupt", 0, 100⟩] 5 "k").2,
        r2.cache_key ≠ "k")
    ∧ get_raw_weather_cache [⟨"k", "corrupt", 0, 100⟩] 5 "k"
        = (none, [⟨"k", "corrupt", 0, 100⟩]) :=
  corrupt_row_read_behaviour [⟨"k", "corrupt", 0, 100⟩] 5 "k"
    ⟨"k", "corrupt", 0, 100⟩ (by decide) (by decide)

/-- A row of the `alerts` table
(primary key `(province, district, forecast_days)`). -/
structure AlertRow where
  province : String
  district : String
  forecast_days : Nat
  alert_text : String
  created_at : Nat
  expires_at : Nat
deriving Repr, DecidableEq

/-- The `alerts` table. -/
abbrev AlertsTable := List AlertRow

/-- The persistent store: both tables of `weather.db`. -/
structure DBState where
  weather_cache : WeatherCache
  alerts : AlertsTable
deriving Repr, DecidableEq

/-- SQL `LIKE` on character lists: `%` matches any run of characters and
`_` matches exactly one character; every other character matches itself. -/
def likeMatch : List Char → List Char → Bool
  | [], s => s.isEmpty
  | c :: ps, s =>
    if c = '%' then
      likeMatch ps s ||
        (match s with
          | [] => false
          | _ :: s' => likeMatch (c :: ps) s')
    else
      match s with
      | [] => false
      | c' :: s' => (c == '_' || c == c') && likeMatch ps s'
termination_by p s => (s.length, p.length)

/-- SQL `column LIKE pattern`. -/
def «like» (pat s : String) : Bool :=
  likeMatch pat.data s.data

/-- The `weather_cache` `DELETE` predicate of `purge_cache_db`'s
empty-district branch: `cache_key LIKE 'forecast_{province}_%_{days}' OR
cache_key LIKE 'alerts_{province}_{days}_%'`. -/
def purgeWeatherPatternHit (province : String) (forecast_days : Nat)
    (key : String) : Bool :=
  «like» ("forecast_" ++ province ++ "_%_" ++ toString forecast_days) key ||
    «like» ("alerts_" ++ province ++ "_" ++ toString forecast_days ++ "_%") key

/-- The key `f"forecast_{province}_{district}_{forecast_days}"` deleted
exactly by `purge_cache_db`'s per-district loop. -/
def purgeForecastKey (province district : String) (forecast_days : Nat) :
    String :=
  "forecast_" ++ province ++ "_" ++ district ++ "_" ++ toString forecast_days

/-- The key `f"alerts_{province}_{forecast_days}_{district}"` deleted exactly
by `purge_cache_db`'s per-district loop. -/
def purgeAlertsKey (province district : String) (forecast_days : Nat) :
    String :=
  "alerts_" ++ province ++ "_" ++ toString forecast_days ++ "_" ++ district

/-- One iteration of `purge_cache_db`'s per-district loop: delete the alert
row keyed `(province, district, forecast_days)` (adding `cursor.rowcount` to
the running count) and the two exactly-named weather-cache keys. -/
def purgeDistrictStep (province : String) (forecast_days : Nat)
    (acc : Nat × DBState) (district : String) : Nat × DBState :=
  let hit := fun (r : AlertRow) =>
    r.province == province && r.district == district &&
      r.forecast_days == forecast_days
  ⟨acc.1 + (acc.2.alerts.filter hit).length,
    { alerts := acc.2.alerts.filter (fun r => !hit r),
      weather_cache := acc.2.weather_cache.filter (fun r =>
        !(r.cache_key == purgeForecastKey province district forecast_days ||
          r.cache_key == purgeAlertsKey province district forecast_days)) }⟩

/-- Model of `database.purge_cache_db`: with no districts, delete every alert row for
`(province, *, forecast_days)` (returning that `rowcount`) plus the
pattern-matching weather-cache rows; otherwise run the per-district loop,
summing the alert `rowcount`s. -/
def purge_cache_db (db : DBState) (province : String)
    (districts : List String) (forecast_days : Nat) : Nat × DBState :=
  if districts.isEmpty then
    let hit := fun (r : AlertRow) =>
      r.province == province && r.forecast_days == forecast_days
    ⟨(db.alerts.filter hit).length,
      { alerts := db.alerts.filter (fun r => !hit r),
        weather_cache := db.weather_cache.filter (fun r =>
          !purgeWeatherPatternHit province forecast_days r.cache_key) }⟩
  else
    districts.foldl (purgeDistrictStep province forecast_days) (0, db)

/-- Deleting the `P`-rows and then, from the remainder, the `Q`-rows removes
as many rows as one pass with `P || Q`. -/
theorem length_filter_split {α : Type} (P Q : α → Bool) (l : List α) :
    (l.filter P).length + ((l.filter (fun x => !P x)).filter Q).length
      = (l.filter (fun x => P x || Q x)).length := by
  rw [List.filter_filter]
  induction l with
  | nil => simp
  | cons a l ih =>
    by_cases hP : P a <;> by_cases hQ : Q a <;>
      simp [hP, hQ, List.filter_cons] <;> omega

/-- The per-district purge loop, run over a whole district list: the count is
the number of alert rows of the province/horizon whose district occurs in
the list, those rows are removed, and the weather-cache rows whose key
equals one of the per-district forecast/alerts keys are removed. -/
theorem purge_fold_spec (province : String) (fd : Nat) (ds : List String) :
    ∀ (c0 : Nat) (st : DBState),
    ds.foldl (purgeDistrictStep province fd) (c0, st) =
      ⟨c0 + (st.alerts.filter (fun r => r.province == province &&
          r.forecast_days == fd && decide (r.district ∈ ds))).length,
        { alerts := st.alerts.filter (fun r => !(r.province == province &&
            r.forecast_days == fd && decide (r.district ∈ ds))),
          weather_cache := st.weather_cache.filter (fun r =>
            !(ds.any (fun d => r.cache_key == purgeForecastKey province d fd ||
              r.cache_key == purgeAlertsKey province d fd))) }⟩ := by
  induction ds with
  | nil => intro c0 st; simp
  | cons d ds ih =>
    intro c0 st
    rw [List.foldl_cons, purgeDistrictStep]
    rw [ih]
    have halerts :
        (st.alerts.filter (fun r => !(r.province == province &&
            r.district == d && r.forecast_days == fd))).filter
          (fun r => !(r.province == province && r.forecast_days == fd &&
            decide (r.district ∈ ds)))
        = st.alerts.filter (fun r => !(r.province == province &&
            r.forecast_days == fd && decide (r.district ∈ d :: ds))) := by
      rw [List.filter_filter]
      apply List.filter_congr
      intro r _
      by_cases h1 : r.province = province <;>
        by_cases h2 : r.forecast_days = fd <;>
        by_cases h3 : r.district = d <;>
        by_cases h4 : r.district ∈ ds <;>
        simp [h1, h2, h3, h4]
    have hcount :
        (st.alerts.filter (fun r => r.province == province &&
            r.district == d && r.forecast_days == fd)).length +
          ((st.alerts.filter (fun r => !(r.province == province &&
            r.district == d && r.forecast_days == fd))).filter
            (fun r => r.province == province && r.forecast_days == fd &&
              decide (r.district ∈ ds))).length
        = (st.alerts.filter (fun r => r.province == province &&
            r.forecast_days == fd && decide (r.district ∈ d :: ds))).length := by
      rw [length_filter_split]
      congr 1
      apply List.filter_congr
      intro r _
      by_cases h1 : r.province = province <;>
        by_cases h2 : r.forecast_days = fd <;>
        by_cases h3 : r.district = d <;>
        by_cases h4 : r.district ∈ ds <;>
        simp [h1, h2, h3, h4]
    have hweather :
        (st.weather_cache.filter (fun r =>
            !(r.cache_key == purgeForecastKey province d fd ||
              r.cache_key == purgeAlertsKey province d fd))).filter
          (fun r => !(ds.any (fun d2 =>
            r.cache_key == purgeForecastKey province d2 fd ||
            r.cache_key == purgeAlertsKey province d2 fd)))
        = st.weather_cache.filter (fun r => !((d :: ds).any (fun d2 =>
            r.cache_key == purgeForecastKey province d2 fd ||
            r.cache_key == purgeAlertsKey province d2 fd))) := by
      rw [List.filter_filter]
      apply List.filter_congr
      intro r _
      simp only [List.any_cons]
      by_cases hf : r.cache_key == purgeForecastKey province d fd <;>
        by_cases ha : r.cache_key == purgeAlertsKey province d fd <;>
        simp [hf, ha]
    simp only [halerts, hweather]
    rw [Nat.add_assoc, hcount]

/-- C7: purging with an empty district list deletes exactly the alert rows
keyed `(province, *, forecast_days)` and returns their count; purging with a
single district `d` deletes exactly the rows keyed
`(province, d, forecast_days)` and returns their count; in both cases every
alert row of another province, another horizon, or a non-listed district
survives. -/
theorem purge_alert_rows_spec (db : DBState) (province : String) (fd : Nat) :
    ((purge_cache_db db province [] fd).1
        = (db.alerts.filter (fun r =>
            decide (r.province = province ∧ r.forecast_days = fd))).length
      ∧ (purge_cache_db db province [] fd).2.alerts
        = db.alerts.filter (fun r =>
            !decide (r.province = province ∧ r.forecast_days = fd)))
    ∧ (∀ d : String,
        (purge_cache_db db province [d] fd).1
          = (db.alerts.filter (fun r =>
              decide (r.province = province ∧ r.district = d ∧
                r.forecast_days = fd))).length
        ∧ (purge_cache_db db province [d] fd).2.alerts
          = db.alerts.filter (fun r =>
              !decide (r.province = province ∧ r.district = d ∧
                r.forecast_days = fd)))
    ∧ (∀ r ∈ db.alerts, r.province ≠ province ∨ r.forecast_days ≠ fd →
        r ∈ (purge_cache_db db province [] fd).2.alerts)
    ∧ (∀ d : String, ∀ r ∈ db.alerts,
        r.province ≠ province ∨ r.forecast_days ≠ fd ∨ r.district ≠ d →
        r ∈ (purge_cache_db db province [d] fd).2.alerts) := by
  have hpe : ∀ r : AlertRow,
      (r.province == province && r.forecast_days == fd)
        = decide (r.province = province ∧ r.forecast_days = fd) := by
    intro r
    by_cases h1 : r.province = province <;>
      by_cases h2 : r.forecast_days = fd <;> simp [h1, h2]
  have hpd : ∀ (d : String) (r : AlertRow),
      (r.province == province && r.forecast_days == fd &&
          decide (r.district ∈ [d]))
        = decide (r.province = province ∧ r.district = d ∧
            r.forecast_days = fd) := by
    intro d r
    by_cases h1 : r.province = province <;>
      by_cases h2 : r.forecast_days = fd <;>
      by_cases h3 : r.district = d <;> simp [h1, h2, h3]
  have hempty1 : (purge_cache_db db province [] fd).1
      = (db.alerts.filter (fun r =>
          decide (r.province = province ∧ r.forecast_days = fd))).length := by
    simp only [purge_cache_db, List.isEmpty_nil, if_true]
    congr 1
    exact List.filter_congr (fun r _ => hpe r)
  have hempty2 : (purge_cache_db db province [] fd).2.alerts
      = db.alerts.filter (fun r =>
          !decide (r.province = province ∧ r.forecast_days = fd)) := by
    simp only [purge_cache_db, List.isEmpty_nil, if_true]
    exact List.filter_congr (fun r _ => by rw [hpe r])
  have hsingle : ∀ d : String, purge_cache_db db province [d] fd
      = ⟨(db.alerts.filter (fun r =>
            decide (r.province = province ∧ r.district = d ∧
              r.forecast_days = fd))).length,
          { alerts := db.alerts.filter (fun r =>
              !decide (r.province = province ∧ r.district = d ∧
                r.forecast_days = fd)),
            weather_cache := db.weather_cache.filter (fun r =>
              !(r.cache_key == purgeForecastKey province d fd ||
                r.cache_key == purgeAlertsKey province d fd)) }⟩ := by
    intro d
    rw [purge_cache_db]
    simp only [List.isEmpty_cons, if_false, Bool.false_eq_true]
    rw [purge_fold_spec]
    refine congrArg₂ _ ?_ (congrArg₂ _ ?_ ?_)
    · rw [Nat.zero_add]
      congr 1
      exact List.filter_congr (fun r _ => hpd d r)
    · apply List.filter_congr
      intro r _
      simp [List.any_cons]
    · exact List.filter_congr (fun r _ => by rw [hpd d r])
  refine ⟨⟨hempty1, hempty2⟩, ?_, ?_, ?_⟩
  · intro d
    rw [hsingle d]
    exact ⟨rfl, rfl⟩
  · intro r hr hne
    rw [hempty2]
    refine List.mem_filter.mpr ⟨hr, ?_⟩
    simp only [Bool.not_eq_eq_eq_not, Bool.not_true, decide_eq_false_iff_not]
    tauto
  · intro d r hr hne
    rw [hsingle d]
    refine List.mem_filter.mpr ⟨hr, ?_⟩
    simp only [Bool.not_eq_eq_eq_not, Bool.not_true, decide_eq_false_iff_not]
    tauto

/-- Witness for C7: the spec scenario — 5 PUNJAB horizon-3 alert rows are all
removed with count 5, a single-district purge removes exactly that row with
count 1, and rows of another province/horizon survive both. -/
theorem purge_alert_rows_spec_witness :
    (purge_cache_db
        { weather_cache := [],
          alerts := [⟨"PUNJAB", "LAHORE", 3, "a1", 0, 100⟩,
            ⟨"PUNJAB", "MULTAN", 3, "a2", 0, 100⟩,
            ⟨"PUNJAB", "KASUR", 3, "a3", 0, 100⟩,
            ⟨"PUNJAB", "SIALKOT", 3, "a4", 0, 100⟩,
            ⟨"PUNJAB", "ATTOCK", 3, "a5", 0, 100⟩,
            ⟨"SINDH", "KARACHI", 3, "b1", 0, 100⟩,
            ⟨"PUNJAB", "LAHORE", 1, "c1", 0, 100⟩] }
        "PUNJAB" [] 3).1 = 5
    ∧ (purge_cache_db
        { weather_cache := [],
          alerts := [⟨"PUNJAB", "LAHORE", 3, "a1", 0, 100⟩,
            ⟨"PUNJAB", "MULTAN", 3, "a2", 0, 100⟩,
            ⟨"SINDH", "KARACHI", 3, "b1", 0, 100⟩] }
        "PUNJAB" ["LAHORE"] 3).1 = 1
    ∧ (⟨"SINDH", "KARACHI", 3, "b1", 0, 100⟩ : AlertRow) ∈
        (purge_cache_db
          { weather_cache := [],
            alerts := [⟨"PUNJAB", "LAHORE", 3, "a1", 0, 100⟩,
              ⟨"PUNJAB", "MULTAN", 3, "a2", 0, 100⟩,
              ⟨"SINDH", "KARACHI", 3, "b1", 0, 100⟩] }
          "PUNJAB" ["LAHORE"] 3).2.alerts := by
  refine ⟨?_, ?_, ?_⟩
  · rw [(purge_alert_rows_spec _ "PUNJAB" 3).1.1]
    decide
  · rw [((purge_alert_rows_spec _ "PUNJAB" 3).2.1 "LAHORE").1]
    decide
  · exact (purge_alert_rows_spec _ "PUNJAB" 3).2.2.2 "LAHORE"
      ⟨"SINDH", "KARACHI", 3, "b1", 0, 100⟩ (by decide)
      (Or.inl (by decide))

/-- The cache key `f"weather_{forecast_days}_{province}_{sanitized_district}"`
under which `WeatherService.get_bulk_weather_data` reads and writes the
weather cache. -/
def bulkCacheKey (forecast_days : Nat) (province sanitized_district : String) :
    String :=
  "weather_" ++ toString forecast_days ++ "_" ++ province ++ "_" ++
    sanitized_district

theorem likeMatch_cons_ne (c : Char) (ps : List Char) (c' : Char)
    (s : List Char) (h1 : c ≠ '%') (h2 : c ≠ '_') (h3 : c ≠ c') :
    likeMatch (c :: ps) (c' :: s) = false := by
  rw [likeMatch]
  simp [h1, h2, h3]

theorem exists_data_head_append (A B : String) (c : Char)
    (h : ∃ l, A.data = c :: l) : ∃ l, (A ++ B).data = c :: l := by
  obtain ⟨l, hl⟩ := h
  exact ⟨l ++ B.data, by simp [hl]⟩

theorem like_false_of_head_ne (pat s : String) (cp cs : Char)
    (hp : ∃ l, pat.data = cp :: l) (hs : ∃ l, s.data = cs :: l)
    (h1 : cp ≠ '%') (h2 : cp ≠ '_') (h3 : cp ≠ cs) :
    «like» pat s = false := by
  obtain ⟨lp, hlp⟩ := hp
  obtain ⟨ls, hls⟩ := hs
  rw [«like», hlp, hls]
  exact likeMatch_cons_ne cp lp cs ls h1 h2 h3

theorem beq_false_of_head_ne (x y : String) (c c' : Char)
    (hx : ∃ l, x.data = c :: l) (hy : ∃ l, y.data = c' :: l) (h : c ≠ c') :
    (x == y) = false := by
  obtain ⟨lx, hlx⟩ := hx
  obtain ⟨ly, hly⟩ := hy
  refine beq_eq_false_iff_ne.mpr ?_
  intro he
  rw [he, hly] at hlx
  exact h (List.head_eq_of_cons_eq hlx).symm

theorem bulkCacheKey_head (fd' : Nat) (pv sd : String) :
    ∃ l, (bulkCacheKey fd' pv sd).data = 'w' :: l := by
  unfold bulkCacheKey
  exact exists_data_head_append _ _ _ (exists_data_head_append _ _ _
    (exists_data_head_append _ _ _ (exists_data_head_append _ _ _
      (exists_data_head_append _ _ _ ⟨"eather_".data, by decide⟩))))

theorem purgeForecastKey_head (pv d : String) (fd : Nat) :
    ∃ l, (purgeForecastKey pv d fd).data = 'f' :: l := by
  unfold purgeForecastKey
  exact exists_data_head_append _ _ _ (exists_data_head_append _ _ _
    (exists_data_head_append _ _ _ (exists_data_head_append _ _ _
      (exists_data_head_append _ _ _ ⟨"orecast_".data, by decide⟩))))

theorem purgeAlertsKey_head (pv d : String) (fd : Nat) :
    ∃ l, (purgeAlertsKey pv d fd).data = 'a' :: l := by
  unfold purgeAlertsKey
  exact exists_data_head_append _ _ _ (exists_data_head_append _ _ _
    (exists_data_head_append _ _ _ (exists_data_head_append _ _ _
      (exists_data_head_append _ _ _ ⟨"lerts_".data, by decide⟩))))

/-- A key written by the bulk fetcher never matches either weather-cache
delete predicate of `purge_cache_db`'s empty-district branch. -/
theorem bulkKey_pattern_miss (province : String) (fd fd' : Nat)
    (pv sd : String) :
    purgeWeatherPatternHit province fd (bulkCacheKey fd' pv sd) = false := by
  unfold purgeWeatherPatternHit
  rw [like_false_of_head_ne _ _ 'f' 'w'
      (exists_data_head_append _ _ _ (exists_data_head_append _ _ _
        (exists_data_head_append _ _ _ ⟨"orecast_".data, by decide⟩)))
      (bulkCacheKey_head fd' pv sd) (by decide) (by decide) (by decide),
    like_false_of_head_ne _ _ 'a' 'w'
      (exists_data_head_append _ _ _ (exists_data_head_append _ _ _
        (exists_data_head_append _ _ _ (exists_data_head_append _ _ _
          ⟨"lerts_".data, by decide⟩))))
      (bulkCacheKey_head fd' pv sd) (by decide) (by decide) (by decide)]
  rfl

/-- C10: a weather-cache row whose key has the bulk fetcher's
`weather_{days}_{province}_{district}` format survives every
`purge_cache_db` call — the purge's weather predicates only match
`forecast_`/`alerts_` keys. -/
theorem bulk_weather_rows_survive_purge (db : DBState) (province : String)
    (districts : List String) (fd : Nat) (r : CacheRow)
    (hr : r ∈ db.weather_cache) (fd' : Nat) (pv sd : String)
    (hkey : r.cache_key = bulkCacheKey fd' pv sd) :
    r ∈ (purge_cache_db db province districts fd).2.weather_cache := by
  by_cases hd : districts.isEmpty
  · rw [purge_cache_db, if_pos hd]
    refine List.mem_filter.mpr ⟨hr, ?_⟩
    rw [hkey, bulkKey_pattern_miss]
    rfl
  · rw [purge_cache_db, if_neg hd]
    rw [purge_fold_spec]
    refine List.mem_filter.mpr ⟨hr, ?_⟩
    have hany : districts.any (fun d =>
        r.cache_key == purgeForecastKey province d fd ||
        r.cache_key == purgeAlertsKey province d fd) = false := by
      refine List.any_eq_false.mpr ?_
      intro d _
      rw [hkey,
        beq_false_of_head_ne _ _ 'w' 'f' (bulkCacheKey_head fd' pv sd)
          (purgeForecastKey_head province d fd) (by decide),
        beq_false_of_head_ne _ _ 'w' 'a' (bulkCacheKey_head fd' pv sd)
          (purgeAlertsKey_head province d fd) (by decide)]
      decide
    rw [hany]
    rfl

/-- Witness for C10: the concrete key `weather_3_PUNJAB_LAHORE` survives both
the empty-district purge and a listed-district purge for the same province
and horizon. -/
theorem bulk_weather_rows_survive_purge_witness :
    (⟨"weather_3_PUNJAB_LAHORE", "x", 0, 100⟩ : CacheRow) ∈
      (purge_cache_db
        { weather_cache := [⟨"weather_3_PUNJAB_LAHORE", "x", 0, 100⟩],
          alerts := [] } "PUNJAB" [] 3).2.weather_cache
    ∧ (⟨"weather_3_PUNJAB_LAHORE", "x", 0, 100⟩ : CacheRow) ∈
      (purge_cache_db
        { weather_cache := [⟨"weather_3_PUNJAB_LAHORE", "x", 0, 100⟩],
          alerts := [] } "PUNJAB" ["LAHORE"] 3).2.weather_cache := by
  constructor
  · exact bulk_weather_rows_survive_purge _ "PUNJAB" [] 3 _ (by decide) 3
      "PUNJAB" "LAHORE" (by decide)
  · exact bulk_weather_rows_survive_purge _ "PUNJAB" ["LAHORE"] 3 _
      (by decide) 3 "PUNJAB" "LAHORE" (by decide)

/-- Model of `database.get_alerts_batch`, primary query: `SELECT ... FROM alerts WHERE
(province, district, forecast_days) IN (VALUES ...) AND expires_at >
CURRENT_TIMESTAMP`; an empty request list returns `{}` before any query. -/
def get_alerts_batch_tupleIn (alerts : AlertsTable) (now : Nat)
    (reqs : List (String × String × Nat)) :
    List ((String × String × Nat) × String) :=
  if reqs.isEmpty then []
  else
    (alerts.filter (fun r =>
      decide ((r.province, r.district, r.forecast_days) ∈ reqs) &&
        decide (now < r.expires_at))).map
      (fun r => ((r.province, r.district, r.forecast_days), r.alert_text))

/-- The `WHERE` predicate of the fallback query of `get_alerts_batch`.  The
query text is `WHERE (province = ? AND district = ? AND forecast_days = ?)
OR ... OR (province = ? AND district = ? AND forecast_days = ?) AND
expires_at > CURRENT_TIMESTAMP`: since SQL `AND` binds tighter than `OR`,
the expiry check guards only the **last** disjunct.  The flat
left-associated OR chain of the source is written here as a right fold,
equal by associativity of disjunction. -/
def orChainPred (now : Nat) (reqs : List (String × String × Nat))
    (r : AlertRow) : Bool :=
  match reqs with
  | [] => false
  | [t] => (r.province == t.1 && r.district == t.2.1 &&
      r.forecast_days == t.2.2) && decide (now < r.expires_at)
  | t :: ts => (r.province == t.1 && r.district == t.2.1 &&
      r.forecast_days == t.2.2) || orChainPred now ts r

/-- Model of `database.get_alerts_batch`, fallback query taken when the tuple
syntax raises `sqlite3.OperationalError`: the OR-chain over per-tuple
equality clauses, with the `expires_at > CURRENT_TIMESTAMP` conjunct
attached — by SQL operator precedence — to the last clause only. -/
def get_alerts_batch_orChain (alerts : AlertsTable) (now : Nat)
    (reqs : List (String × String × Nat)) :
    List ((String × String × Nat) × String) :=
  if reqs.isEmpty then []
  else
    (alerts.filter (orChainPred now reqs)).map
      (fun r => ((r.province, r.district, r.forecast_days), r.alert_text))

/-- C9: the primary tuple-`IN` query and the OR-chain fallback do **not**
return identical mappings.  At this failing input — two requested tuples,
with the row matching the first tuple expired at `now = 10` — the primary
query filters the expired row out, while the fallback returns it, because
its expiry check is attached by SQL precedence to the last disjunct only.
The claim states the intent (a functional fallback with identical results,
as both the spec and the fallback path of the source describe); the missing
parentheses in the source are the slip. -/
theorem get_alerts_batch_fallback_divergence :
    get_alerts_batch_tupleIn
        [⟨"P", "D1", 1, "a", 0, 5⟩, ⟨"P", "D2", 1, "b", 0, 100⟩] 10
        [("P", "D1", 1), ("P", "D2", 1)]
      = [(("P", "D2", 1), "b")]
    ∧ get_alerts_batch_orChain
        [⟨"P", "D1", 1, "a", 0, 5⟩, ⟨"P", "D2", 1, "b", 0, 100⟩] 10
        [("P", "D1", 1), ("P", "D2", 1)]
      = [(("P", "D1", 1), "a"), (("P", "D2", 1), "b")] :=
  ⟨by decide, by decide⟩

/-- In-memory bookkeeping of `BackgroundTaskManager`: `tasks` is the set of
ids with a registered live thread (thread handles are abstracted to their
ids), `task_results` and `task_errors` the per-id dictionaries. -/
structure TaskManager (α : Type) where
  tasks : List String
  task_results : List (String × α)
  task_errors : List (String × String)
deriving Repr

/-- Model of `run_task` before the thread body runs: `self.tasks[task_id] = thread`
(dictionary upsert). -/
def TaskManager.schedule {α : Type} (tm : TaskManager α) (tid : String) :
    TaskManager α :=
  { tm with tasks := tid :: tm.tasks.filter (fun i => !(i == tid)) }

/-- Model of the body of the `wrapper` in `run_task` once `func` finishes.  A normal return value is
recorded in `task_results`; an exception is caught at this boundary and its
string recorded in `task_errors` — `complete` is total, so nothing ever
propagates out of the runner.  The `finally` block then deletes the id from
`tasks`. -/
def TaskManager.complete {α : Type} (tm : TaskManager α) (tid : String)
    (work : Except String α) : TaskManager α :=
  let tm2 :=
    match work with
    | .ok v =>
      { tm with task_results :=
          (tid, v) :: tm.task_results.filter (fun p => !(p.1 == tid)) }
    | .error e =>
      { tm with task_errors :=
          (tid, e) :: tm.task_errors.filter (fun p => !(p.1 == tid)) }
  { tm2 with tasks := tm2.tasks.filter (fun i => !(i == tid)) }

/-- Scheduling a unit of work and running it to completion. -/
def TaskManager.run_to_completion {α : Type} (tm : TaskManager α)
    (tid : String) (work : Except String α) : TaskManager α :=
  (tm.schedule tid).complete tid work

/-- Model of `BackgroundTaskManager.is_running`: `task_id in self.tasks and
self.tasks[task_id].is_alive()` (an id absent from `tasks` is not running
regardless of thread liveness). -/
def TaskManager.is_running {α : Type} (tm : TaskManager α) (tid : String) :
    Bool :=
  decide (tid ∈ tm.tasks)

/-- Model of `BackgroundTaskManager.get_result`: `self.task_results.get(task_id)`. -/
def TaskManager.get_result {α : Type} (tm : TaskManager α) (tid : String) :
    Option α :=
  (tm.task_results.find? (fun p => p.1 == tid)).map (fun p => p.2)

/-- Model of `BackgroundTaskManager.get_error`: `self.task_errors.get(task_id)`. -/
def TaskManager.get_error {α : Type} (tm : TaskManager α) (tid : String) :
    Option String :=
  (tm.task_errors.find? (fun p => p.1 == tid)).map (fun p => p.2)

/-- C5: for a task whose id is fresh (no stale entry from an earlier task
with the same caller-supplied id), once the unit of work completes: exactly
one of the result/error maps holds an entry for the id, the id leaves the
running set (`is_running` is false), the recorded outcome stays queryable,
and a raised exception is recorded as the task's error string (the runner
itself never sees it). -/
theorem run_task_completion_spec {α : Type} (tm : TaskManager α)
    (tid : String) (work : Except String α)
    (hfr : ∀ p ∈ tm.task_results, p.1 ≠ tid)
    (hfe : ∀ p ∈ tm.task_errors, p.1 ≠ tid) :
    (tm.run_to_completion tid work).is_running tid = false
    ∧ ((((tm.run_to_completion tid work).get_result tid).isSome
          ∧ (tm.run_to_completion tid work).get_error tid = none)
        ∨ ((tm.run_to_completion tid work).get_result tid = none
          ∧ (((tm.run_to_completion tid work).get_error tid).isSome)))
    ∧ (∀ v, work = .ok v →
        (tm.run_to_completion tid work).get_result tid = some v)
    ∧ (∀ e, work = .error e →
        (tm.run_to_completion tid work).get_error tid = some e) := by
  have hrun : (tm.run_to_completion tid work).is_running tid = false := by
    cases work <;>
    · simp only [TaskManager.run_to_completion, TaskManager.schedule,
        TaskManager.complete, TaskManager.is_running, decide_eq_false_iff_not]
      intro hmem
      have := List.mem_filter.mp hmem
      simp at this
  cases work with
  | ok v =>
    have hres : (tm.run_to_completion tid (.ok v)).get_result tid = some v := by
      simp [TaskManager.run_to_completion, TaskManager.schedule,
        TaskManager.complete, TaskManager.get_result]
    have herr : (tm.run_to_completion tid (.ok v)).get_error tid = none := by
      simp only [TaskManager.run_to_completion, TaskManager.schedule,
        TaskManager.complete, TaskManager.get_error, Option.map_eq_none']
      refine List.find?_eq_none.mpr ?_
      intro p hp
      simpa using hfe p hp
    refine ⟨hrun, Or.inl ⟨by rw [hres]; rfl, herr⟩, ?_, ?_⟩
    · intro v2 hv2
      cases hv2
      exact hres
    · intro e he
      cases he
  | error e =>
    have herr : (tm.run_to_completion tid (.error e)).get_error tid
        = some e := by
      simp [TaskManager.run_to_completion, TaskManager.schedule,
        TaskManager.complete, TaskManager.get_error]
    have hres : (tm.run_to_completion tid (.error e)).get_result tid
        = none := by
      simp only [TaskManager.run_to_completion, TaskManager.schedule,
        TaskManager.complete, TaskManager.get_result, Option.map_eq_none']
      refine List.find?_eq_none.mpr ?_
      intro p hp
      simpa using hfr p hp
    refine ⟨hrun, Or.inr ⟨hres, by rw [herr]; rfl⟩, ?_, ?_⟩
    · intro v hv
      cases hv
    · intro e2 he2
      cases he2
      exact herr

/-- Witness for C5 at a fresh manager, for both a succeeding and a failing
unit of work. -/
theorem run_task_completion_spec_witness :
    (TaskManager.run_to_completion
        (⟨[], [], []⟩ : TaskManager Nat) "t" (.ok 42)).get_result "t"
      = some 42
    ∧ (TaskManager.run_to_completion
        (⟨[], [], []⟩ : TaskManager Nat) "t" (.ok 42)).is_running "t" = false
    ∧ (TaskManager.run_to_completion
        (⟨[], [], []⟩ : TaskManager Nat) "t" (.error "boom")).get_error "t"
      = some "boom" := by
  have h1 := run_task_completion_spec (⟨[], [], []⟩ : TaskManager Nat) "t"
    (.ok 42) (by simp) (by simp)
  have h2 := run_task_completion_spec (⟨[], [], []⟩ : TaskManager Nat) "t"
    (.error "boom") (by simp) (by simp)
  exact ⟨h1.2.2.1 42 rfl, h1.1, h2.2.2.2 "boom" rfl⟩

/-- Latitude/longitude pair passed through to the upstream fetch. -/
abbrev Coord := Int × Int

/-- The hit test of `get_bulk_weather_data`'s first loop: the store lookup
must return a live row **and** the orchestrator's own age check
`(now - created_at) < cache_time` against the effective TTL must pass. -/
def bulkHit (s : WeatherCache) (now cache_time : Nat) (key : String) :
    Option Payload :=
  match (get_raw_weather_cache s now key).1 with
  | some (data, created_at) =>
    if ((now : Int) - (created_at : Int)) < (cache_time : Int) then some data
    else none
  | none => none

/-- Result of `WeatherService.get_bulk_weather_data`: the returned
district→payload mapping, the districts for which a fetch call was issued,
and the final cache state. -/
structure BulkOutcome where
  result : List (String × Payload)
  fetched : List String
  cache : WeatherCache
deriving Repr, DecidableEq

/-- Model of `WeatherService.get_bulk_weather_data`.  The classification loop marks
each district hit or miss via `bulkHit`; if nothing is uncached the cached
data is returned with no fetch; otherwise every uncached district gets
exactly one `fetch_single_district` call, successes are written back with
the configured TTL and merged, failures are only logged and skipped.
`sanitize` stands for `utils.validation.sanitize_filename` (not among the
sources; opaque here); `configCacheTime` is `Config.CACHE_TIME` used by the
write-back; `fetch` abstracts one fetch after the transport layer's
retries, `none` being any post-retry failure (non-200 status or raised
exception, both turned into a logged skip).  The `as_completed` completion
order is nondeterministic in the source; we fix submission order, on which
none of the proved set/length properties depend. -/
def get_bulk_weather_data (s : WeatherCache) (now : Nat)
    (configCacheTime : Nat) (province : String) (sanitize : String → String)
    (districts : List (String × Coord)) (forecast_days : Nat)
    (cache_time : Nat) (fetch : String → Coord → Option Payload) :
    BulkOutcome :=
  let hit := fun (dc : String × Coord) =>
    bulkHit s now cache_time (bulkCacheKey forecast_days province (sanitize dc.1))
  let cached_data := districts.filterMap
    (fun dc => (hit dc).map (fun p => (dc.1, p)))
  let uncached := districts.filter (fun dc => (hit dc).isNone)
  if uncached.isEmpty then
    { result := cached_data, fetched := [], cache := s }
  else
    { result := cached_data ++ uncached.filterMap
        (fun dc => (fetch dc.1 dc.2).map (fun p => (dc.1, p))),
      fetched := uncached.map (fun dc => dc.1),
      cache := uncached.foldl (fun st dc =>
        match fetch dc.1 dc.2 with
        | some p => set_raw_weather_cache st now configCacheTime
            (bulkCacheKey forecast_days province (sanitize dc.1)) p
        | none => st) s }

/-- A `filterMap` keeps as many elements as the `isSome` filter. -/
theorem length_filterMap_eq_length_filter {α β : Type} (f : α → Option β)
    (l : List α) :
    (l.filterMap f).length = (l.filter (fun a => (f a).isSome)).length := by
  induction l with
  | nil => rfl
  | cons a l ih =>
    cases h : f a <;> simp [List.filterMap_cons, h, List.filter_cons, ih]

/-- Branch-free description of `get_bulk_weather_data`: the early return on
an empty miss set coincides with running the fetch stage on no districts. -/
theorem get_bulk_weather_data_eq (s : WeatherCache) (now : Nat)
    (configCacheTime : Nat) (province : String) (sanitize : String → String)
    (districts : List (String × Coord)) (forecast_days : Nat)
    (cache_time : Nat) (fetch : String → Coord → Option Payload) :
    get_bulk_weather_data s now configCacheTime province sanitize districts
        forecast_days cache_time fetch =
      { result := districts.filterMap (fun dc =>
            (bulkHit s now cache_time
              (bulkCacheKey forecast_days province (sanitize dc.1))).map
              (fun p => (dc.1, p))) ++
          (districts.filter (fun dc =>
            (bulkHit s now cache_time
              (bulkCacheKey forecast_days province (sanitize dc.1))).isNone)).filterMap
            (fun dc => (fetch dc.1 dc.2).map (fun p => (dc.1, p))),
        fetched := (districts.filter (fun dc =>
          (bulkHit s now cache_time
            (bulkCacheKey forecast_days province (sanitize dc.1))).isNone)).map
          (fun dc => dc.1),
        cache := (districts.filter (fun dc =>
          (bulkHit s now cache_time
            (bulkCacheKey forecast_days province (sanitize dc.1))).isNone)).foldl
          (fun st dc =>
            match fetch dc.1 dc.2 with
            | some p => set_raw_weather_cache st now configCacheTime
                (bulkCacheKey forecast_days province (sanitize dc.1)) p
            | none => st) s } := by
  simp only [get_bulk_weather_data]
  by_cases he : (districts.filter (fun dc =>
      (bulkHit s now cache_time
        (bulkCacheKey forecast_days province (sanitize dc.1))).isNone)).isEmpty
  · rw [if_pos he]
    rw [List.isEmpty_iff.mp he]
    simp
  · rw [if_neg he]

/-- C1: in one `get_bulk_weather_data` call, (i) if every requested district
is a cache hit (live row with age below the effective TTL) no fetch is
issued and the cached payloads are returned; (ii) if no district is a hit,
exactly one fetch per district is issued; (iii) in general the fetched set
is exactly the districts that are expired or never cached; (iv) an empty
district set gives an empty result and no fetch; and (v) the result size is
the number of hits plus the number of successful fetches. -/
theorem bulk_fetch_cache_split (s : WeatherCache) (now : Nat)
    (configCacheTime : Nat) (province : String) (sanitize : String → String)
    (districts : List (String × Coord)) (forecast_days : Nat)
    (cache_time : Nat) (fetch : String → Coord → Option Payload) :
    ((∀ dc ∈ districts,
        (bulkHit s now cache_time
          (bulkCacheKey forecast_days province (sanitize dc.1))).isSome) →
      (get_bulk_weather_data s now configCacheTime province sanitize districts
          forecast_days cache_time fetch).fetched = []
      ∧ (get_bulk_weather_data s now configCacheTime province sanitize
          districts forecast_days cache_time fetch).result
        = districts.filterMap (fun dc =>
            (bulkHit s now cache_time
              (bulkCacheKey forecast_days province (sanitize dc.1))).map
              (fun p => (dc.1, p))))
    ∧ ((∀ dc ∈ districts,
        bulkHit s now cache_time
          (bulkCacheKey forecast_days province (sanitize dc.1)) = none) →
      (get_bulk_weather_data s now configCacheTime province sanitize districts
          forecast_days cache_time fetch).fetched
        = districts.map (fun dc => dc.1))
    ∧ ((get_bulk_weather_data s now configCacheTime province sanitize
        districts forecast_days cache_time fetch).fetched
      = (districts.filter (fun dc =>
          (bulkHit s now cache_time
            (bulkCacheKey forecast_days province (sanitize dc.1))).isNone)).map
        (fun dc => dc.1))
    ∧ (districts = [] →
      (get_bulk_weather_data s now configCacheTime province sanitize districts
          forecast_days cache_time fetch).result = []
      ∧ (get_bulk_weather_data s now configCacheTime province sanitize
          districts forecast_days cache_time fetch).fetched = [])
    ∧ ((get_bulk_weather_data s now configCacheTime province sanitize
        districts forecast_days cache_time fetch).result.length
      = (districts.filter (fun dc =>
          (bulkHit s now cache_time
            (bulkCacheKey forecast_days province (sanitize dc.1))).isSome)).length
        + (districts.filter (fun dc =>
            (fetch dc.1 dc.2).isSome &&
              (bulkHit s now cache_time
                (bulkCacheKey forecast_days province (sanitize dc.1))).isNone)).length) := by
  rw [get_bulk_weather_data_eq]
  refine ⟨?_, ?_, rfl, ?_, ?_⟩
  · intro hall
    have h0 : districts.filter (fun dc =>
        (bulkHit s now cache_time
          (bulkCacheKey forecast_days province (sanitize dc.1))).isNone) = [] := by
      refine List.filter_eq_nil_iff.mpr ?_
      intro dc hdc
      simp [Option.isNone_iff_eq_none, Option.isSome_iff_ne_none.mp (hall dc hdc)]
    rw [h0]
    exact ⟨rfl, by simp⟩
  · intro hnone
    have h1 : districts.filter (fun dc =>
        (bulkHit s now cache_time
          (bulkCacheKey forecast_days province (sanitize dc.1))).isNone)
        = districts := by
      refine List.filter_eq_self.mpr ?_
      intro dc hdc
      simp [hnone dc hdc]
    rw [h1]
  · intro hd
    rw [hd]
    exact ⟨rfl, rfl⟩
  · rw [List.length_append, length_filterMap_eq_length_filter,
      length_filterMap_eq_length_filter, List.filter_filter]
    congr 1
    · congr 1
      apply List.filter_congr
      intro dc _
      exact Option.isSome_map'
    · congr 1
      apply List.filter_congr
      intro dc _
      rw [Option.isSome_map']

/-- Witness for C1: the spec scenario `{A: cached-fresh, B: cached-expired,
C: never-cached}` — fetches go to exactly `{B, C}`, an all-hit call fetches
nothing, an all-miss call fetches everything, the empty call does nothing,
and the mixed result has 1 hit + 2 successful fetches = 3 entries. -/
theorem bulk_fetch_cache_split_witness :
    (get_bulk_weather_data
        [⟨"weather_3_P_A", encodePayload 5, 900, 2000⟩,
          ⟨"weather_3_P_B", encodePayload 6, 100, 500⟩]
        1000 300 "P" (fun d => d) [("A", (0, 0))] 3 300
        (fun d _ => if d = "B" then some 7 else
          if d = "C" then some 9 else none)).fetched = []
    ∧ (get_bulk_weather_data
        [⟨"weather_3_P_A", encodePayload 5, 900, 2000⟩,
          ⟨"weather_3_P_B", encodePayload 6, 100, 500⟩]
        1000 300 "P" (fun d => d) [("B", (1, 1)), ("C", (2, 2))] 3 300
        (fun d _ => if d = "B" then some 7 else
          if d = "C" then some 9 else none)).fetched = ["B", "C"]
    ∧ (get_bulk_weather_data
        [⟨"weather_3_P_A", encodePayload 5, 900, 2000⟩,
          ⟨"weather_3_P_B", encodePayload 6, 100, 500⟩]
        1000 300 "P" (fun d => d)
        [("A", (0, 0)), ("B", (1, 1)), ("C", (2, 2))] 3 300
        (fun d _ => if d = "B" then some 7 else
          if d = "C" then some 9 else none)).fetched = ["B", "C"]
    ∧ (get_bulk_weather_data
        [⟨"weather_3_P_A", encodePayload 5, 900, 2000⟩,
          ⟨"weather_3_P_B", encodePayload 6, 100, 500⟩]
        1000 300 "P" (fun d => d) [] 3 300
        (fun d _ => if d = "B" then some 7 else
          if d = "C" then some 9 else none)).result = []
    ∧ (get_bulk_weather_data
        [⟨"weather_3_P_A", encodePayload 5, 900, 2000⟩,
          ⟨"weather_3_P_B", encodePayload 6, 100, 500⟩]
        1000 300 "P" (fun d => d)
        [("A", (0, 0)), ("B", (1, 1)), ("C", (2, 2))] 3 300
        (fun d _ => if d = "B" then some 7 else
          if d = "C" then some 9 else none)).result.length = 3 := by
  refine ⟨?_, ?_, ?_, ?_, ?_⟩
  · exact ((bulk_fetch_cache_split _ 1000 300 "P" (fun d => d)
      [("A", (0, 0))] 3 300 _).1 (by decide)).1
  · rw [(bulk_fetch_cache_split _ 1000 300 "P" (fun d => d)
      [("B", (1, 1)), ("C", (2, 2))] 3 300 _).2.1 (by decide)]
    decide
  · rw [(bulk_fetch_cache_split _ 1000 300 "P" (fun d => d)
      [("A", (0, 0)), ("B", (1, 1)), ("C", (2, 2))] 3 300 _).2.2.1]
    decide
  · exact ((bulk_fetch_cache_split _ 1000 300 "P" (fun d => d)
      [] 3 300 _).2.2.2.1 rfl).1
  · rw [(bulk_fetch_cache_split _ 1000 300 "P" (fun d => d)
      [("A", (0, 0)), ("B", (1, 1)), ("C", (2, 2))] 3 300 _).2.2.2.2]
    decide

/-- C3: a district whose fetch fails even after the transport retries (a
`none` from `fetch`) is simply omitted from the returned mapping — the
orchestrator is total, nothing is raised — and replacing that district's
fetch outcome does not add, remove or alter any other district's entry in
the same batch's result. -/
theorem bulk_fetch_failure_isolated (s : WeatherCache) (now : Nat)
    (configCacheTime : Nat) (province : String) (sanitize : String → String)
    (districts : List (String × Coord)) (forecast_days : Nat)
    (cache_time : Nat) (fetch : String → Coord → Option Payload)
    (dstar : String)
    (hmiss : bulkHit s now cache_time
      (bulkCacheKey forecast_days province (sanitize dstar)) = none)
    (hfail : ∀ c : Coord, fetch dstar c = none) :
    (∀ v : Payload, (dstar, v) ∉
      (get_bulk_weather_data s now configCacheTime province sanitize districts
        forecast_days cache_time fetch).result)
    ∧ (∀ g : String → Coord → Option Payload,
        (∀ (d : String) (c : Coord), d ≠ dstar → g d c = fetch d c) →
        ∀ (d' : String) (v : Payload), d' ≠ dstar →
          ((d', v) ∈ (get_bulk_weather_data s now configCacheTime province
              sanitize districts forecast_days cache_time fetch).result ↔
            (d', v) ∈ (get_bulk_weather_data s now configCacheTime province
              sanitize districts forecast_days cache_time g).result)) := by
  constructor
  · intro v hv
    rw [get_bulk_weather_data_eq] at hv
    rcases List.mem_append.mp hv with hc | hs
    · obtain ⟨dc, hdc, hmap⟩ := List.mem_filterMap.mp hc
      obtain ⟨p, hp, heq⟩ := Option.map_eq_some'.mp hmap
      have h1 : dc.1 = dstar := (Prod.mk.injEq .. ▸ heq).1
      rw [h1] at hp
      rw [hmiss] at hp
      exact Option.noConfusion hp
    · obtain ⟨dc, hdc, hmap⟩ := List.mem_filterMap.mp hs
      obtain ⟨p, hp, heq⟩ := Option.map_eq_some'.mp hmap
      have h1 : dc.1 = dstar := (Prod.mk.injEq .. ▸ heq).1
      rw [h1] at hp
      rw [hfail dc.2] at hp
      exact Option.noConfusion hp
  · intro g hg d' v hne
    rw [get_bulk_weather_data_eq, get_bulk_weather_data_eq]
    rw [List.mem_append, List.mem_append]
    refine or_congr Iff.rfl ?_
    rw [List.mem_filterMap, List.mem_filterMap]
    constructor
    · rintro ⟨dc, hdc, hmap⟩
      obtain ⟨p, hp, heq⟩ := Option.map_eq_some'.mp hmap
      have h1 : dc.1 = d' := (Prod.mk.injEq .. ▸ heq).1
      refine ⟨dc, hdc, ?_⟩
      rw [hg dc.1 dc.2 (h1 ▸ hne), hp]
      exact congrArg some heq
    · rintro ⟨dc, hdc, hmap⟩
      obtain ⟨p, hp, heq⟩ := Option.map_eq_some'.mp hmap
      have h1 : dc.1 = d' := (Prod.mk.injEq .. ▸ heq).1
      refine ⟨dc, hdc, ?_⟩
      rw [← hg dc.1 dc.2 (h1 ▸ hne), hp]
      exact congrArg some heq

/-- Witness for C3: with `C`'s fetch failing, `C` is absent from the result
while `B`'s entry is exactly what it is under a fetch function that differs
only at `C`. -/
theorem bulk_fetch_failure_isolated_witness :
    ("C", (9 : Payload)) ∉
      (get_bulk_weather_data
        [⟨"weather_3_P_A", encodePayload 5, 900, 2000⟩]
        1000 300 "P" (fun d => d)
        [("A", (0, 0)), ("B", (1, 1)), ("C", (2, 2))] 3 300
        (fun d _ => if d = "B" then some 7 else none)).result
    ∧ ("B", (7 : Payload)) ∈
      (get_bulk_weather_data
        [⟨"weather_3_P_A", encodePayload 5, 900, 2000⟩]
        1000 300 "P" (fun d => d)
        [("A", (0, 0)), ("B", (1, 1)), ("C", (2, 2))] 3 300
        (fun d _ => if d = "B" then some 7 else none)).result := by
  have h := bulk_fetch_failure_isolated
    [⟨"weather_3_P_A", encodePayload 5, 900, 2000⟩]
    1000 300 "P" (fun d => d)
    [("A", (0, 0)), ("B", (1, 1)), ("C", (2, 2))] 3 300
    (fun d _ => if d = "B" then some 7 else none) "C" (by decide)
    (fun _ => rfl)
  refine ⟨h.1 9, ?_⟩
  refine (h.2 (fun d _ => if d = "B" then some 7 else
      if d = "C" then some 9 else none)
    (fun d c hd => ?_) "B" 7 (by decide)).mpr (by decide)
  by_cases hb : d = "B" <;> simp [hb, hd]

/-- The success dictionary `generate_alerts_task` returns
(`{"status": "success", "message": ..., "alert_text": ..., "province": ...}`,
keyed here by its two data-bearing fields). -/
structure GenResult where
  alert_text : String
  province : String
deriving Repr, DecidableEq

/-- Modelled from the spec: the external alert-text generator and its parser
(`AlertService.generate_alert` and `AlertService.parse_district_alerts`;
`services/alert_service.py` is not among the sources).  The generator is
called once per region with the full per-location forecast set and yields
free text; the parser splits that text into per-location alerts. -/
structure AlertGen where
  generate_alert : String → List (String × Payload) → String
  parse_district_alerts : String → List (String × String)

/-- Model of `generate_alerts_task`, the background unit of work of
`/generate_alerts` in `routes/api_routes.py`: the task's return value
together with its effect trace — the `purge_cache` calls made and the alert
rows persisted by `save_district_alerts`.  When the bulk fetch yields an
empty mapping it logs an error and returns `None` before any purge or
persist.  The DataFrame conversion step is abstracted away: it preserves
the district key set, which is all the later steps consume here. -/
def generate_alerts_task (weather_data : List (String × Payload))
    (gen : AlertGen) (province : String) (forecast_days : Nat) :
    Option GenResult × List (String × List String × Nat) ×
      List (String × String × Nat × String) :=
  if weather_data.isEmpty then (none, [], [])
  else
    let alert_text := gen.generate_alert province weather_data
    let alerts := gen.parse_district_alerts alert_text
    (some ⟨alert_text, province⟩,
      [(province, weather_data.map (fun f => f.1), forecast_days)],
      alerts.map (fun a => (province, a.1, forecast_days, a.2)))

/-- C6 counterexample: a run whose bulk fetch yields the empty mapping.  The
task returns `None` (no purge, nothing persisted) and the runner records it
as a **result**: the background task's error slot stays empty, contradicting
the claim that the failure is surfaced through the error slot. -/
theorem empty_fetch_error_slot_counterexample :
    generate_alerts_task [] ⟨fun _ _ => "alert", fun _ => []⟩ "Punjab" 3
      = (none, [], [])
    ∧ (TaskManager.run_to_completion
        (⟨[], [], []⟩ : TaskManager (Option GenResult)) "alerts_Punjab_3"
        (.ok (generate_alerts_task []
          ⟨fun _ _ => "alert", fun _ => []⟩ "Punjab" 3).1)).get_error
        "alerts_Punjab_3" = none
    ∧ (TaskManager.run_to_completion
        (⟨[], [], []⟩ : TaskManager (Option GenResult)) "alerts_Punjab_3"
        (.ok (generate_alerts_task []
          ⟨fun _ _ => "alert", fun _ => []⟩ "Punjab" 3).1)).get_result
        "alerts_Punjab_3" = some none :=
  ⟨rfl, rfl, rfl⟩

/-- C6 amended: when the bulk fetch step yields an empty mapping the pipeline
aborts early — it performs no purge, persists no alert entries (prior alert
state is left intact) and returns a null result, which the background task
records in its **result** slot while the error slot stays empty (the
failure is only logged). -/
theorem empty_fetch_aborts_without_purge
    (wd : List (String × Payload)) (hwd : wd = []) (gen : AlertGen)
    (province : String) (fd : Nat) (tm : TaskManager (Option GenResult))
    (tid : String) (hfe : ∀ p ∈ tm.task_errors, p.1 ≠ tid) :
    generate_alerts_task wd gen province fd = (none, [], [])
    ∧ (tm.run_to_completion tid
        (.ok (generate_alerts_task wd gen province fd).1)).get_result tid
      = some none
    ∧ (tm.run_to_completion tid
        (.ok (generate_alerts_task wd gen province fd).1)).get_error tid
      = none := by
  subst hwd
  have h0 : generate_alerts_task [] gen province fd = (none, [], []) := rfl
  refine ⟨h0, ?_, ?_⟩
  · rw [h0]
    simp [TaskManager.run_to_completion, TaskManager.schedule,
      TaskManager.complete, TaskManager.get_result]
  · rw [h0]
    simp only [TaskManager.run_to_completion, TaskManager.schedule,
      TaskManager.complete, TaskManager.get_error, Option.map_eq_none']
    exact List.find?_eq_none.mpr (fun p hp => by simpa using hfe p hp)

/-- Witness for C6 amended at a concrete empty-fetch run. -/
theorem empty_fetch_aborts_without_purge_witness :
    generate_alerts_task [] ⟨fun _ _ => "alert", fun _ => []⟩ "Punjab" 3
      = (none, [], [])
    ∧ (TaskManager.run_to_completion
        (⟨["alerts_Punjab_3"], [], []⟩ : TaskManager (Option GenResult))
        "alerts_Punjab_3"
        (.ok (generate_alerts_task []
          ⟨fun _ _ => "alert", fun _ => []⟩ "Punjab" 3).1)).get_result
        "alerts_Punjab_3" = some none
    ∧ (TaskManager.run_to_completion
        (⟨["alerts_Punjab_3"], [], []⟩ : TaskManager (Option GenResult))
        "alerts_Punjab_3"
        (.ok (generate_alerts_task []
          ⟨fun _ _ => "alert", fun _ => []⟩ "Punjab" 3).1)).get_error
        "alerts_Punjab_3" = none :=
  empty_fetch_aborts_without_purge [] rfl
    ⟨fun _ _ => "alert", fun _ => []⟩ "Punjab" 3
    ⟨["alerts_Punjab_3"], [], []⟩ "alerts_Punjab_3" (by simp)

end WeatherAlerts
